import Mathlib

/-!
Custom Window Border Color (custombordersmod.wh.cpp)

A shallow embedding of the Windhawk mod and the properties of its colour codec,
window classifier, enforcement routine, interceptors and unload pass.

Conventions of the embedding

* A wide string (LPCWSTR) is `Option (List Char)`: `none` is the null pointer and
  `some cs` is the string whose characters before the terminator are `cs`.
* DWORD, COLORREF, WPARAM and the like are natural numbers; every conversion that
  truncates in the source is an explicit `% 2 ^ 32`.
* HRESULT and LRESULT are integers.
* The functions that work on windows record the calls that leave the module (the
  saved originals of the hooked functions and `Wh_Log`), in order, in a trace of
  `Event`s; what the system answers is given by a `Host`, which may look at
  everything that happened before.
* `HexToColorRef` and `LoadSettings` are functions of their texts; their `Wh_Log`
  lines influence no result and are left out.
-/

namespace WindowBorders

/-! ## Colour codec -/

/-- Value of a hexadecimal digit as the C runtime reads it for the X conversion. -/
def hexDigitValue (c : Char) : Option Nat :=
  let n := c.toNat
  if 48 ≤ n ∧ n ≤ 57 then some (n - 48)          -- '0' .. '9'
  else if 97 ≤ n ∧ n ≤ 102 then some (n - 97 + 10)  -- 'a' .. 'f'
  else if 65 ≤ n ∧ n ≤ 70 then some (n - 65 + 10)   -- 'A' .. 'F'
  else none

/-- The white-space characters skipped in front of a numeric conversion. -/
def iswspace (c : Char) : Bool :=
  c = ' ' || c = '\t' || c = '\n' || c = '\x0b' || c = '\x0c' || c = '\r'

/-- Longest run of hexadecimal digits at the head of the input, accumulated most
significant digit first; `acc` is `none` until a first digit has been read. -/
def scanHexDigits : List Char → Option Nat → Option Nat
  | [], acc => acc
  | c :: cs, acc =>
    match hexDigitValue c with
    | some v => scanHexDigits cs (some (acc.getD 0 * 16 + v))
    | none => acc

/-- Optional sign in front of a number: whether it is a minus, and the rest. -/
def scanSign : List Char → Bool × List Char
  | '-' :: r => (true, r)
  | '+' :: r => (false, r)
  | s => (false, s)

/-- Optional `0x`/`0X` prefix of a hexadecimal number: the input behind it. -/
def scanHexPrefix : List Char → List Char
  | '0' :: 'x' :: r => r
  | '0' :: 'X' :: r => r
  | s => s

/-- The conversion `swscanf_s(str, L"%X", &color)` of the C runtime: white space is
skipped, then an optional sign and an optional `0x`/`0X` prefix are read, then the
longest run of hexadecimal digits. `none` is a matching failure (nothing is stored
through the pointer); `some v` is the DWORD stored. -/
def swscanf_X (str : List Char) : Option Nat :=
  let s1 := str.dropWhile iswspace
  let signed := scanSign s1
  let s3 := scanHexPrefix signed.2
  match scanHexDigits s3 none with
  | none =>
    -- a bare prefix `0x` still holds the digit 0
    if s3.length < signed.2.length then some 0 else none
  | some v =>
    if signed.1 then some ((2 ^ 32 - v % 2 ^ 32) % 2 ^ 32) else some (v % 2 ^ 32)

/-- Length test of line 77: `wcslen(hexColor)`. -/
def wcslen (s : List Char) : Nat := s.length

/-- The call `wcsncpy_s(rgbStr, 7, colorStr, 6)`: at most six characters are copied
into the seven-element buffer, which always has room for them and the terminator. -/
def wcsncpy_s_6 (colorStr : List Char) : List Char := colorStr.take 6

/-- Fallback colour returned at line 80. -/
def fallbackColor : Nat := 0x00D47800

/-- Embedding of `COLORREF HexToColorRef(LPCWSTR hexColor)`, lines 75-105. -/
def HexToColorRef (hexColor : Option (List Char)) : Nat :=
  match hexColor with
  | none => fallbackColor
  | some s =>
    if wcslen s < 6 then fallbackColor
    else
      let colorStr := match s with
        | '#' :: rest => rest
        | _ => s
      let rgbStr := wcsncpy_s_6 colorStr
      -- DWORD color = 0; the conversion result is not inspected
      let color := (swscanf_X rgbStr).getD 0
      let red := (color >>> 16) &&& 0xFF
      let green := (color >>> 8) &&& 0xFF
      let blue := color &&& 0xFF
      ((blue <<< 16) ||| (green <<< 8) ||| red) % 2 ^ 32

/-! ## Settings and colour state -/

/-- The call `wcscpy_s(dest, src)` of the C runtime on a destination array of
`destsz` wide characters. When the source and its terminator do not fit, nothing
is copied and the runtime raises its invalid-parameter fault, which ends the
process unless the host installed a handler of its own: that outcome is `none`. -/
def wcscpy_s (destsz : Nat) (src : List Char) : Option (List Char) :=
  if src.length < destsz then some src else none

/-- The global `settings` of lines 64-68: the text held by the two 16-element arrays. -/
structure Settings where
  activeBorderColor : List Char
  inactiveBorderColor : List Char
deriving DecidableEq, Repr

/-- The globals written by `LoadSettings`: `settings`, `BorderActive`, `BorderInactive`. -/
structure ColorState where
  settings : Settings
  BorderActive : Nat
  BorderInactive : Nat
deriving DecidableEq, Repr

/-- Embedding of `void LoadSettings()`, lines 107-124. The two arguments are what
`Wh_GetStringSetting` returned for `activeBorderColor` and `inactiveBorderColor`;
the result is `none` when a `wcscpy_s` raised its fault, else the globals written. -/
def LoadSettings (activeBorderColorValue inactiveBorderColorValue : Option (List Char)) :
    Option ColorState :=
  match wcscpy_s 16 (activeBorderColorValue.getD "#0078D4".toList) with
  | none => none
  | some active =>
    match wcscpy_s 16 (inactiveBorderColorValue.getD "#808080".toList) with
    | none => none
    | some inactive =>
      some { settings := { activeBorderColor := active, inactiveBorderColor := inactive }
             BorderActive := HexToColorRef (some active)
             BorderInactive := HexToColorRef (some inactive) }

/-! ## Windows constants used by the module -/

/-- Window style bit of a sizing border (winuser.h). -/
def WS_THICKFRAME : Nat := 0x00040000
/-- Window style bits of a title bar, WS_BORDER and WS_DLGFRAME (winuser.h). -/
def WS_CAPTION : Nat := 0x00C00000
/-- Attribute id of the border colour (dwmapi.h). -/
def DWMWA_BORDER_COLOR : Nat := 34
/-- Colour value that asks for the system default border (dwmapi.h). -/
def DWMWA_COLOR_DEFAULT : Nat := 0xFFFFFFFF
/-- Success code (winerror.h). -/
def S_OK : Int := 0
/-- Message sent when a window is activated or deactivated (winuser.h). -/
def WM_ACTIVATE : Nat := 0x0006
/-- Message sent when the non-client area changes its active state (winuser.h). -/
def WM_NCACTIVATE : Nat := 0x0086
/-- Low-order word of the WM_ACTIVATE parameter of a window being deactivated. -/
def WA_INACTIVE : Nat := 0
/-- Line 72: `const COLORREF ColorDefault = DWMWA_COLOR_DEFAULT`. -/
def ColorDefault : Nat := DWMWA_COLOR_DEFAULT
/-- The value of `sizeof(COLORREF)`. -/
def sizeofCOLORREF : Nat := 4
/-- The macro `LOWORD` of the Windows headers. -/
def LOWORD (x : Nat) : Nat := x % 2 ^ 16
/-- The macro `HIWORD` of the Windows headers. -/
def HIWORD (x : Nat) : Nat := x / 2 ^ 16 % 2 ^ 16

/-! ## Trace of the calls that leave the module -/

/-- What the `pvAttribute` argument of an attribute write points at. -/
inductive PvAttribute where
  /-- a pointer handed in by a caller of the hooked function, passed on as it is -/
  | addr (p : Nat)
  /-- the address of a COLORREF variable of the module holding `c` -/
  | colorref (c : Nat)
deriving DecidableEq, Repr

/-- The four hooked default procedures. -/
inductive DefProc where
  | DefWindowProcA | DefWindowProcW | DefDlgProcA | DefDlgProcW
deriving DecidableEq, Repr

/-- The texts given to `Wh_Log` by the functions that carry a trace. -/
inductive LogMsg where
  | blocked
  | setBorderColor (hWnd activate color : Nat)
  | setBorderColorFailed (hWnd : Nat) (hr : Int)
  | beforeUninit
  | afterInit
  | settingsChanged
deriving DecidableEq, Repr

/-- One call that leaves the module. -/
inductive Event where
  /-- a call of `DwmSetWindowAttribute_orig` with its four arguments -/
  | dwmOrig (hwnd dwAttribute : Nat) (pvAttribute : PvAttribute) (cbAttribute : Nat)
  /-- a call of the saved original of a default procedure with its four arguments -/
  | procOrig (which : DefProc) (hWnd uMsg wParam lParam : Nat)
  /-- a call of `Wh_Log` -/
  | log (msg : LogMsg)
deriving DecidableEq, Repr

/-- Whether the event is a call of the original attribute write. -/
def Event.isDwmOrig : Event → Bool
  | .dwmOrig _ _ _ _ => true
  | _ => false

/-- Whether the event is a call of an original default procedure. -/
def Event.isProcOrig : Event → Bool
  | .procOrig _ _ _ _ _ => true
  | _ => false

/-- The calls of the original attribute write in a trace, in order. -/
def dwmCalls (tr : List Event) : List Event := tr.filter Event.isDwmOrig

/-- The calls of the original default procedures in a trace, in order. -/
def procCalls (tr : List Event) : List Event := tr.filter Event.isProcOrig

/-- The process around the module: what the system answers. Every answer may
depend on the calls made so far. -/
structure Host where
  /-- value of `GetWindowLongPtr(hWnd, GWL_STYLE)` -/
  windowStyle : List Event → Nat → Nat
  /-- result code of the original `DwmSetWindowAttribute` -/
  dwmResult : List Event → Nat → Nat → PvAttribute → Nat → Int
  /-- value returned by the original default procedure -/
  procResult : List Event → DefProc → Nat → Nat → Nat → Nat → Int
  /-- process id stored by `GetWindowThreadProcessId` (0 for a dead handle) -/
  windowProcessId : List Event → Nat → Nat
  /-- value of `GetCurrentProcessId()` -/
  currentProcessId : Nat
  /-- value of `GetForegroundWindow()` -/
  foregroundWindow : List Event → Nat

/-- The macro `SUCCEEDED(hr)`. -/
def SUCCEEDED (hr : Int) : Bool := decide (0 ≤ hr)

/-- The test of line 130 on a style word. -/
def hasFrameOrCaption (dwStyle : Nat) : Bool :=
  (dwStyle &&& WS_THICKFRAME == WS_THICKFRAME) || (dwStyle &&& WS_CAPTION == WS_CAPTION)

/-- Embedding of `BOOL IsValidWindow(HWND hWnd)`, lines 126-131. -/
def IsValidWindow (host : Host) (tr : List Event) (hWnd : Nat) : Bool :=
  let dwStyle := host.windowStyle tr hWnd % 2 ^ 32
  hasFrameOrCaption dwStyle

/-- A call through the saved pointer `DwmSetWindowAttribute_orig`. -/
def DwmSetWindowAttribute_orig (host : Host) (hwnd dwAttribute : Nat)
    (pvAttribute : PvAttribute) (cbAttribute : Nat) (tr : List Event) : Int × List Event :=
  (host.dwmResult tr hwnd dwAttribute pvAttribute cbAttribute,
   tr ++ [Event.dwmOrig hwnd dwAttribute pvAttribute cbAttribute])

/-- A call through the saved pointer of one of the default procedures. -/
def DefProc_orig (host : Host) (which : DefProc) (hWnd uMsg wParam lParam : Nat)
    (tr : List Event) : Int × List Event :=
  (host.procResult tr which hWnd uMsg wParam lParam,
   tr ++ [Event.procOrig which hWnd uMsg wParam lParam])

/-- Embedding of `DwmSetWindowAttribute_hook`, lines 135-145. -/
def DwmSetWindowAttribute_hook (host : Host) (hwnd dwAttribute : Nat)
    (pvAttribute : PvAttribute) (cbAttribute : Nat) (tr : List Event) : Int × List Event :=
  if dwAttribute == DWMWA_BORDER_COLOR && IsValidWindow host tr hwnd then
    (S_OK, tr ++ [Event.log LogMsg.blocked])
  else
    DwmSetWindowAttribute_orig host hwnd dwAttribute pvAttribute cbAttribute tr

/-- Embedding of `void SetBorderColor(HWND hWnd, BOOL activate)`, lines 147-165.
`activate` is the 32-bit BOOL; any value but 0 counts as true. -/
def SetBorderColor (host : Host) (cs : ColorState) (hWnd activate : Nat)
    (tr : List Event) : List Event :=
  if !IsValidWindow host tr hWnd then tr
  else
    let color := if activate ≠ 0 then cs.BorderActive else cs.BorderInactive
    let r := DwmSetWindowAttribute_orig host hWnd DWMWA_BORDER_COLOR
      (PvAttribute.colorref color) sizeofCOLORREF tr
    if SUCCEEDED r.1 then
      r.2 ++ [Event.log (LogMsg.setBorderColor hWnd activate color)]
    else
      r.2 ++ [Event.log (LogMsg.setBorderColorFailed hWnd r.1)]

/-- Conversion of a WPARAM argument to the BOOL parameter of `SetBorderColor`. -/
def BOOL_of_WPARAM (wParam : Nat) : Nat := wParam % 2 ^ 32

/-- Embedding of `DefWindowProcA_hook`, lines 169-182. -/
def DefWindowProcA_hook (host : Host) (cs : ColorState) (hWnd uMsg wParam lParam : Nat)
    (tr : List Event) : Int × List Event :=
  let r := DefProc_orig host DefProc.DefWindowProcA hWnd uMsg wParam lParam tr
  if uMsg = WM_ACTIVATE ∨ uMsg = WM_NCACTIVATE then
    (r.1, SetBorderColor host cs hWnd (BOOL_of_WPARAM wParam) r.2)
  else
    (r.1, r.2)

/-- Embedding of `DefWindowProcW_hook`, lines 186-199. -/
def DefWindowProcW_hook (host : Host) (cs : ColorState) (hWnd uMsg wParam lParam : Nat)
    (tr : List Event) : Int × List Event :=
  let r := DefProc_orig host DefProc.DefWindowProcW hWnd uMsg wParam lParam tr
  if uMsg = WM_ACTIVATE ∨ uMsg = WM_NCACTIVATE then
    (r.1, SetBorderColor host cs hWnd (BOOL_of_WPARAM wParam) r.2)
  else
    (r.1, r.2)

/-- Embedding of `DefDlgProcA_hook`, lines 203-213. -/
def DefDlgProcA_hook (host : Host) (cs : ColorState) (hWnd uMsg wParam lParam : Nat)
    (tr : List Event) : Int × List Event :=
  let r := DefProc_orig host DefProc.DefDlgProcA hWnd uMsg wParam lParam tr
  if uMsg = WM_NCACTIVATE then
    (r.1, SetBorderColor host cs hWnd (BOOL_of_WPARAM wParam) r.2)
  else
    (r.1, r.2)

/-- Embedding of `DefDlgProcW_hook`, lines 217-227. -/
def DefDlgProcW_hook (host : Host) (cs : ColorState) (hWnd uMsg wParam lParam : Nat)
    (tr : List Event) : Int × List Event :=
  let r := DefProc_orig host DefProc.DefDlgProcW hWnd uMsg wParam lParam tr
  if uMsg = WM_NCACTIVATE then
    (r.1, SetBorderColor host cs hWnd (BOOL_of_WPARAM wParam) r.2)
  else
    (r.1, r.2)

/-- Embedding of `EnableEnumWindowsCallback`, lines 229-241; the BOOL returned is
1 for TRUE. -/
def EnableEnumWindowsCallback (host : Host) (cs : ColorState) (hWnd lParam : Nat)
    (tr : List Event) : Nat × List Event :=
  let pid := lParam % 2 ^ 32
  let wPid := host.windowProcessId tr hWnd % 2 ^ 32
  if pid = wPid then
    (1, SetBorderColor host cs hWnd (if host.foregroundWindow tr = hWnd then 1 else 0) tr)
  else
    (1, tr)

/-- Embedding of `DisableEnumWindowsCallback`, lines 243-255; the BOOL returned is
1 for TRUE. -/
def DisableEnumWindowsCallback (host : Host) (hWnd lParam : Nat)
    (tr : List Event) : Nat × List Event :=
  let pid := lParam % 2 ^ 32
  let wPid := host.windowProcessId tr hWnd % 2 ^ 32
  if pid = wPid ∧ IsValidWindow host tr hWnd = true then
    (1, (DwmSetWindowAttribute_orig host hWnd DWMWA_BORDER_COLOR
          (PvAttribute.colorref ColorDefault) sizeofCOLORREF tr).2)
  else
    (1, tr)

/-- The system call `EnumWindows(callback, lParam)` over the top-level windows
`windows`, in the order the system hands them out: the callback is called for one
window after the other and the enumeration stops when it returns FALSE (0). -/
def EnumWindows (callback : Nat → Nat → List Event → Nat × List Event) (lParam : Nat) :
    List Nat → List Event → List Event
  | [], tr => tr
  | hWnd :: rest, tr =>
    let r := callback hWnd lParam tr
    if r.1 = 0 then r.2 else EnumWindows callback lParam rest r.2

/-- The value `GetCurrentProcessId()` as a DWORD. -/
def GetCurrentProcessId (host : Host) : Nat := host.currentProcessId % 2 ^ 32

/-- Embedding of `Wh_ModSettingsChanged`, lines 257-264: the new globals (`none`
when `LoadSettings` did not complete) and the trace. -/
def Wh_ModSettingsChanged (host : Host) (activeText inactiveText : Option (List Char))
    (windows : List Nat) (tr : List Event) : Option (ColorState × List Event) :=
  let tr1 := tr ++ [Event.log LogMsg.settingsChanged]
  match LoadSettings activeText inactiveText with
  | none => none
  | some cs =>
    some (cs, EnumWindows (EnableEnumWindowsCallback host cs) (GetCurrentProcessId host)
      windows tr1)

/-- Embedding of `Wh_ModInit`, lines 266-298, on the globals: the colour state
loaded and the BOOL returned (1 for TRUE), or `none` when `LoadSettings` did not
complete. The five `Wh_SetFunctionHook` calls put the interceptors in place and
write no colour. -/
def Wh_ModInit (activeText inactiveText : Option (List Char)) : Option (ColorState × Nat) :=
  match LoadSettings activeText inactiveText with
  | none => none
  | some cs => some (cs, 1)

/-- Embedding of `Wh_ModAfterInit`, lines 300-304. -/
def Wh_ModAfterInit (host : Host) (cs : ColorState) (windows : List Nat)
    (tr : List Event) : List Event :=
  EnumWindows (EnableEnumWindowsCallback host cs) (GetCurrentProcessId host) windows
    (tr ++ [Event.log LogMsg.afterInit])

/-- Embedding of `Wh_ModBeforeUninit`, lines 306-310. -/
def Wh_ModBeforeUninit (host : Host) (windows : List Nat) (tr : List Event) : List Event :=
  EnumWindows (DisableEnumWindowsCallback host) (GetCurrentProcessId host) windows
    (tr ++ [Event.log LogMsg.beforeUninit])

/-! ## Vocabulary of the statements -/

/-- The shape of an interceptor of a default procedure: whatever the host answers,
the value returned is the one the original `which` returned when called on the trace
so far, and the trace is extended by that one call, with the four arguments as
received, followed by events that hold no call of a default procedure and at
most one call of the original attribute write. -/
def ForwardsFirst (which : DefProc)
    (hook : Host → ColorState → Nat → Nat → Nat → Nat → List Event → Int × List Event) :
    Prop :=
  ∀ (host : Host) (cs : ColorState) (hWnd uMsg wParam lParam : Nat) (tr : List Event),
    (hook host cs hWnd uMsg wParam lParam tr).1 = host.procResult tr which hWnd uMsg wParam lParam
    ∧ ∃ after : List Event,
        (hook host cs hWnd uMsg wParam lParam tr).2
          = tr ++ Event.procOrig which hWnd uMsg wParam lParam :: after
        ∧ procCalls after = []
        ∧ (dwmCalls after).length ≤ 1

/-! ## A concrete host for the examples -/

/-- Style of an overlapped window with caption and sizing border. -/
def WS_OVERLAPPEDWINDOW : Nat := 0x00CF0000
/-- Style of a bare popup window. -/
def WS_POPUP : Nat := 0x80000000

/-- A process with id 4242 whose windows 1 and 2 are overlapped windows and 3 is a
bare popup; window 7 is an overlapped window of process 999. Every original call
answers 0. -/
def sampleHost : Host where
  windowStyle := fun _ h => if h = 3 then WS_POPUP else WS_OVERLAPPEDWINDOW
  dwmResult := fun _ _ _ _ _ => 0
  procResult := fun _ _ _ _ _ _ => 0
  windowProcessId := fun _ h => if h = 7 then 999 else 4242
  currentProcessId := 4242
  foregroundWindow := fun _ => 1

/-- The same process when the original attribute write fails with E_INVALIDARG and
the default procedures answer 1. -/
def failingHost : Host :=
  { sampleHost with
    dwmResult := fun _ _ _ _ _ => -2147024809
    procResult := fun _ _ _ _ _ _ => 1 }

/-- The colour state of the default configuration. -/
def defaultColors : ColorState where
  settings := { activeBorderColor := "#0078D4".toList, inactiveBorderColor := "#808080".toList }
  BorderActive := 0x00D47800
  BorderInactive := 0x00808080

/-! ## Lemmas on the colour codec -/

theorem hexDigitValue_lt {c : Char} {v : Nat} (h : hexDigitValue c = some v) : v < 16 := by
  unfold hexDigitValue at h
  simp only at h
  split_ifs at h <;> simp at h <;> omega

theorem hexDigitValue_not_ws {c : Char} {v : Nat} (h : hexDigitValue c = some v) :
    iswspace c = false := by
  cases hw : iswspace c with
  | false => rfl
  | true =>
    simp only [iswspace, Bool.or_eq_true, decide_eq_true_eq] at hw
    rcases hw with ((((rfl | rfl) | rfl) | rfl) | rfl) | rfl <;> simp [hexDigitValue] at h

theorem scanHexDigits_six {d1 d2 d3 d4 d5 d6 : Char} {v1 v2 v3 v4 v5 v6 : Nat}
    (h1 : hexDigitValue d1 = some v1) (h2 : hexDigitValue d2 = some v2)
    (h3 : hexDigitValue d3 = some v3) (h4 : hexDigitValue d4 = some v4)
    (h5 : hexDigitValue d5 = some v5) (h6 : hexDigitValue d6 = some v6) :
    scanHexDigits [d1, d2, d3, d4, d5, d6] none
      = some (((((v1 * 16 + v2) * 16 + v3) * 16 + v4) * 16 + v5) * 16 + v6) := by
  simp [scanHexDigits, h1, h2, h3, h4, h5, h6]

theorem swscanf_X_six {d1 d2 d3 d4 d5 d6 : Char} {v1 v2 v3 v4 v5 v6 : Nat}
    (h1 : hexDigitValue d1 = some v1) (h2 : hexDigitValue d2 = some v2)
    (h3 : hexDigitValue d3 = some v3) (h4 : hexDigitValue d4 = some v4)
    (h5 : hexDigitValue d5 = some v5) (h6 : hexDigitValue d6 = some v6) :
    swscanf_X [d1, d2, d3, d4, d5, d6]
      = some (((((v1 * 16 + v2) * 16 + v3) * 16 + v4) * 16 + v5) * 16 + v6) := by
  have l1 := hexDigitValue_lt h1
  have l2 := hexDigitValue_lt h2
  have l3 := hexDigitValue_lt h3
  have l4 := hexDigitValue_lt h4
  have l5 := hexDigitValue_lt h5
  have l6 := hexDigitValue_lt h6
  have hws := hexDigitValue_not_ws h1
  have hm : d1 ≠ '-' := by rintro rfl; simp [hexDigitValue] at h1
  have hp : d1 ≠ '+' := by rintro rfl; simp [hexDigitValue] at h1
  have hx : d2 ≠ 'x' := by rintro rfl; simp [hexDigitValue] at h2
  have hX : d2 ≠ 'X' := by rintro rfl; simp [hexDigitValue] at h2
  have hs : scanSign [d1, d2, d3, d4, d5, d6] = (false, [d1, d2, d3, d4, d5, d6]) := by
    unfold scanSign
    split
    · rename_i heq; simp at heq; exact absurd heq.1 hm
    · rename_i heq; simp at heq; exact absurd heq.1 hp
    · rfl
  have hpre : scanHexPrefix [d1, d2, d3, d4, d5, d6] = [d1, d2, d3, d4, d5, d6] := by
    unfold scanHexPrefix
    split
    · rename_i heq; simp at heq; exact absurd heq.2.1 hx
    · rename_i heq; simp at heq; exact absurd heq.2.1 hX
    · rfl
  unfold swscanf_X
  simp only [List.dropWhile, hws, hs, hpre, scanHexDigits_six h1 h2 h3 h4 h5 h6]
  simp only [Bool.false_eq_true, if_false]
  congr 1
  apply Nat.mod_eq_of_lt
  omega

theorem and_0xFF (x : Nat) : x &&& 0xFF = x % 256 :=
  Nat.and_pow_two_sub_one_eq_mod x 8

theorem or_bytes {r g b : Nat} (hr : r < 256) (hg : g < 256) :
    (b <<< 16) ||| (g <<< 8) ||| r = b * 65536 + g * 256 + r := by
  have e1 : b <<< 16 = 2 ^ 16 * b := by rw [Nat.shiftLeft_eq, Nat.mul_comm]
  have e2 : g <<< 8 = 2 ^ 8 * g := by rw [Nat.shiftLeft_eq, Nat.mul_comm]
  have hg2 : 2 ^ 8 * g < 2 ^ 16 := by omega
  have hr2 : r < 2 ^ 8 := by omega
  rw [e1, e2, ← Nat.mul_add_lt_is_or hg2 b]
  have e3 : 2 ^ 16 * b + 2 ^ 8 * g = 2 ^ 8 * (2 ^ 8 * b + g) := by omega
  rw [e3, ← Nat.mul_add_lt_is_or hr2]
  omega

/-- The packing of lines 97-104 in arithmetic form, for any DWORD read. -/
theorem pack_eq (color : Nat) :
    ((((color &&& 0xFF) <<< 16) ||| (((color >>> 8) &&& 0xFF) <<< 8)
        ||| ((color >>> 16) &&& 0xFF)) % 2 ^ 32)
      = (color % 256) * 65536 + (color / 256 % 256) * 256 + color / 65536 % 256 := by
  rw [and_0xFF, and_0xFF, and_0xFF, Nat.shiftRight_eq_div_pow, Nat.shiftRight_eq_div_pow]
  rw [or_bytes (Nat.mod_lt _ (by norm_num)) (Nat.mod_lt _ (by norm_num))]
  norm_num
  omega

theorem HexToColorRef_lt (hexColor : Option (List Char)) : HexToColorRef hexColor < 2 ^ 24 := by
  unfold HexToColorRef
  split
  · decide
  · split
    · decide
    · simp only [pack_eq]
      omega

/-- The characters that are hexadecimal digits. -/
theorem hexDigitValue_mem {c : Char} {v : Nat} (h : hexDigitValue c = some v) :
    c ∈ "0123456789abcdefABCDEF".toList := by
  have hc := Char.ofNat_toNat c
  unfold hexDigitValue at h
  simp only at h
  have hr : (48 ≤ c.toNat ∧ c.toNat ≤ 57) ∨ (97 ≤ c.toNat ∧ c.toNat ≤ 102)
      ∨ (65 ≤ c.toNat ∧ c.toNat ≤ 70) := by
    split_ifs at h <;> tauto
  generalize c.toNat = n at hc hr
  subst hc
  rcases hr with ⟨a, b⟩ | ⟨a, b⟩ | ⟨a, b⟩ <;> interval_cases n <;> decide

theorem hexDigitValue_toUpper {c : Char} {v : Nat} (h : hexDigitValue c = some v) :
    hexDigitValue c.toUpper = some v := by
  have key : ∀ x ∈ "0123456789abcdefABCDEF".toList,
      hexDigitValue x.toUpper = hexDigitValue x := by decide
  rw [key c (hexDigitValue_mem h), h]

theorem hexDigitValue_toLower {c : Char} {v : Nat} (h : hexDigitValue c = some v) :
    hexDigitValue c.toLower = some v := by
  have key : ∀ x ∈ "0123456789abcdefABCDEF".toList,
      hexDigitValue x.toLower = hexDigitValue x := by decide
  rw [key c (hexDigitValue_mem h), h]

/-- The colour word computed from six digit values. -/
theorem HexToColorRef_six {d1 d2 d3 d4 d5 d6 : Char} {v1 v2 v3 v4 v5 v6 : Nat}
    (h1 : hexDigitValue d1 = some v1) (h2 : hexDigitValue d2 = some v2)
    (h3 : hexDigitValue d3 = some v3) (h4 : hexDigitValue d4 = some v4)
    (h5 : hexDigitValue d5 = some v5) (h6 : hexDigitValue d6 = some v6) :
    HexToColorRef (some [d1, d2, d3, d4, d5, d6])
      = (16 * v1 + v2) + 256 * (16 * v3 + v4) + 65536 * (16 * v5 + v6) := by
  have l1 := hexDigitValue_lt h1
  have l2 := hexDigitValue_lt h2
  have l3 := hexDigitValue_lt h3
  have l4 := hexDigitValue_lt h4
  have l5 := hexDigitValue_lt h5
  have l6 := hexDigitValue_lt h6
  have hh : d1 ≠ '#' := by rintro rfl; simp [hexDigitValue] at h1
  have hstrip : (match [d1, d2, d3, d4, d5, d6] with
      | '#' :: rest => rest
      | _ => [d1, d2, d3, d4, d5, d6]) = [d1, d2, d3, d4, d5, d6] := by
    split
    · rename_i heq; simp at heq; exact absurd heq.1 hh
    · rfl
  unfold HexToColorRef
  simp only [wcslen, List.length_cons, List.length_nil]
  rw [if_neg (by omega)]
  simp only [hstrip, wcsncpy_s_6, List.take, swscanf_X_six h1 h2 h3 h4 h5 h6, Option.getD_some,
    pack_eq]
  omega

theorem HexToColorRef_hash_six {d1 d2 d3 d4 d5 d6 : Char} {v1 v2 v3 v4 v5 v6 : Nat}
    (h1 : hexDigitValue d1 = some v1) (h2 : hexDigitValue d2 = some v2)
    (h3 : hexDigitValue d3 = some v3) (h4 : hexDigitValue d4 = some v4)
    (h5 : hexDigitValue d5 = some v5) (h6 : hexDigitValue d6 = some v6) :
    HexToColorRef (some ['#', d1, d2, d3, d4, d5, d6])
      = (16 * v1 + v2) + 256 * (16 * v3 + v4) + 65536 * (16 * v5 + v6) := by
  have l1 := hexDigitValue_lt h1
  have l2 := hexDigitValue_lt h2
  have l3 := hexDigitValue_lt h3
  have l4 := hexDigitValue_lt h4
  have l5 := hexDigitValue_lt h5
  have l6 := hexDigitValue_lt h6
  unfold HexToColorRef
  simp only [wcslen, List.length_cons, List.length_nil]
  rw [if_neg (by omega)]
  simp only [wcsncpy_s_6, List.take, swscanf_X_six h1 h2 h3 h4 h5 h6, Option.getD_some,
    pack_eq]
  omega

/-! ## Properties of the colour codec -/

/-- Claim C1: for a string of exactly six hexadecimal digits, in upper or lower case
and with or without one leading `#`, `HexToColorRef` returns R + 256*G + 65536*B,
where R, G and B are the values of the first, second and third digit pair: R sits in
bits 0-7, G in bits 8-15, B in bits 16-23 and bits 24-31 are zero. The result is the
same with and without the `#` and for the digits turned to upper or to lower case. -/
theorem HexToColorRef_valid (d1 d2 d3 d4 d5 d6 : Char) (v1 v2 v3 v4 v5 v6 : Nat)
    (h1 : hexDigitValue d1 = some v1) (h2 : hexDigitValue d2 = some v2)
    (h3 : hexDigitValue d3 = some v3) (h4 : hexDigitValue d4 = some v4)
    (h5 : hexDigitValue d5 = some v5) (h6 : hexDigitValue d6 = some v6) :
    HexToColorRef (some [d1, d2, d3, d4, d5, d6])
        = (16 * v1 + v2) + 256 * (16 * v3 + v4) + 65536 * (16 * v5 + v6)
    ∧ HexToColorRef (some ['#', d1, d2, d3, d4, d5, d6])
        = (16 * v1 + v2) + 256 * (16 * v3 + v4) + 65536 * (16 * v5 + v6)
    ∧ HexToColorRef (some [d1, d2, d3, d4, d5, d6]) % 256 = 16 * v1 + v2
    ∧ HexToColorRef (some [d1, d2, d3, d4, d5, d6]) / 2 ^ 8 % 256 = 16 * v3 + v4
    ∧ HexToColorRef (some [d1, d2, d3, d4, d5, d6]) / 2 ^ 16 % 256 = 16 * v5 + v6
    ∧ HexToColorRef (some [d1, d2, d3, d4, d5, d6]) / 2 ^ 24 = 0
    ∧ HexToColorRef (some ([d1, d2, d3, d4, d5, d6].map Char.toUpper))
        = HexToColorRef (some [d1, d2, d3, d4, d5, d6])
    ∧ HexToColorRef (some ([d1, d2, d3, d4, d5, d6].map Char.toLower))
        = HexToColorRef (some [d1, d2, d3, d4, d5, d6])
    ∧ HexToColorRef (some ('#' :: [d1, d2, d3, d4, d5, d6].map Char.toUpper))
        = HexToColorRef (some [d1, d2, d3, d4, d5, d6])
    ∧ HexToColorRef (some ('#' :: [d1, d2, d3, d4, d5, d6].map Char.toLower))
        = HexToColorRef (some [d1, d2, d3, d4, d5, d6]) := by
  have l1 := hexDigitValue_lt h1
  have l2 := hexDigitValue_lt h2
  have l3 := hexDigitValue_lt h3
  have l4 := hexDigitValue_lt h4
  have l5 := hexDigitValue_lt h5
  have l6 := hexDigitValue_lt h6
  have e := HexToColorRef_six h1 h2 h3 h4 h5 h6
  have eU := HexToColorRef_six (hexDigitValue_toUpper h1) (hexDigitValue_toUpper h2)
    (hexDigitValue_toUpper h3) (hexDigitValue_toUpper h4) (hexDigitValue_toUpper h5)
    (hexDigitValue_toUpper h6)
  have eL := HexToColorRef_six (hexDigitValue_toLower h1) (hexDigitValue_toLower h2)
    (hexDigitValue_toLower h3) (hexDigitValue_toLower h4) (hexDigitValue_toLower h5)
    (hexDigitValue_toLower h6)
  have eHU := HexToColorRef_hash_six (hexDigitValue_toUpper h1) (hexDigitValue_toUpper h2)
    (hexDigitValue_toUpper h3) (hexDigitValue_toUpper h4) (hexDigitValue_toUpper h5)
    (hexDigitValue_toUpper h6)
  have eHL := HexToColorRef_hash_six (hexDigitValue_toLower h1) (hexDigitValue_toLower h2)
    (hexDigitValue_toLower h3) (hexDigitValue_toLower h4) (hexDigitValue_toLower h5)
    (hexDigitValue_toLower h6)
  refine ⟨e, HexToColorRef_hash_six h1 h2 h3 h4 h5 h6, ?_, ?_, ?_, ?_, ?_, ?_, ?_, ?_⟩
  · rw [e]; omega
  · rw [e]; omega
  · rw [e]; omega
  · rw [e]; omega
  · rw [e]; exact eU
  · rw [e]; exact eL
  · rw [e]; exact eHU
  · rw [e]; exact eHL

/-- The digits of C1 at the default active colour `#0078D4`, written `0078d4`. -/
theorem HexToColorRef_valid_witness :
    HexToColorRef (some ['0', '0', '7', '8', 'd', '4']) = 0x00D47800
    ∧ HexToColorRef (some ['#', '0', '0', '7', '8', 'd', '4']) = 0x00D47800
    ∧ HexToColorRef (some ['#', '0', '0', '7', '8', 'D', '4']) = 0x00D47800 :=
  have h := HexToColorRef_valid '0' '0' '7' '8' 'd' '4' 0 0 7 8 13 4
    (by decide) (by decide) (by decide) (by decide) (by decide) (by decide)
  ⟨h.1, h.2.1, h.2.2.2.2.2.2.2.2.1.trans h.1⟩

/-- The guard of line 77: a null pointer or a text of fewer than six characters in
all, a leading `#` counted, gives the fallback colour. -/
theorem HexToColorRef_short (hexColor : Option (List Char))
    (h : ∀ s, hexColor = some s → s.length < 6) : HexToColorRef hexColor = 0x00D47800 := by
  cases hexColor with
  | none => rfl
  | some s =>
    have hs := h s rfl
    unfold HexToColorRef
    simp only [wcslen]
    rw [if_pos hs]
    rfl

/-- Claim C7, evaluated where it fails: the text `#12345` has five significant
characters, yet the length test of line 77 counts the `#` too and lets it pass, so
`HexToColorRef` returns 0x00452301 (the digits read as the number 0x012345) and not
the fallback colour 0x00D47800. -/
theorem HexToColorRef_hash_five_digits :
    ("#12345".toList.drop 1).length = 5
    ∧ HexToColorRef (some "#12345".toList) = 0x00452301
    ∧ HexToColorRef (some "#12345".toList) ≠ 0x00D47800 := by
  decide

/-- Claim C8, evaluated where it fails: none of the six characters of `GGGGGG` is a
hexadecimal digit and the conversion fails, yet `HexToColorRef` returns 0 (black),
the initial value of `color`, and not the fallback colour 0x00D47800; with a `#` in
front the result is the same, and `12GGGG` gives 0x00120000. -/
theorem HexToColorRef_not_hex :
    swscanf_X "GGGGGG".toList = none
    ∧ HexToColorRef (some "GGGGGG".toList) = 0
    ∧ HexToColorRef (some "#GGGGGG".toList) = 0
    ∧ HexToColorRef (some "12GGGG".toList) = 0x00120000
    ∧ HexToColorRef (some "GGGGGG".toList) ≠ 0x00D47800 := by
  decide

/-- Both texts fit their buffers: `LoadSettings` completes and the two colours are
the ones parsed from the texts (the defaults standing in for missing texts). -/
theorem LoadSettings_fits (a i : Option (List Char))
    (ha : (a.getD "#0078D4".toList).length < 16) (hi : (i.getD "#808080".toList).length < 16) :
    LoadSettings a i = some
      { settings := { activeBorderColor := a.getD "#0078D4".toList
                      inactiveBorderColor := i.getD "#808080".toList }
        BorderActive := HexToColorRef (some (a.getD "#0078D4".toList))
        BorderInactive := HexToColorRef (some (i.getD "#808080".toList)) } := by
  unfold LoadSettings wcscpy_s
  rw [if_pos ha, if_pos hi]

/-- Claim C9, evaluated where it fails: for an `activeBorderColor` of sixteen
characters (or an `inactiveBorderColor` of twenty) the `wcscpy_s` into the
16-element buffer raises the invalid-parameter fault of the C runtime and
`LoadSettings` does not complete; fifteen characters still fit. -/
theorem LoadSettings_overlong :
    "#0078D4000000000".toList.length = 16
    ∧ LoadSettings (some "#0078D4000000000".toList) (some "#808080".toList) = none
    ∧ LoadSettings none (some "#808080 is the gray".toList) = none
    ∧ (LoadSettings (some "#0078D400000000".toList) none).isSome = true := by
  decide

/-- Claim C10: for every input text (null, malformed, too short, longer than six
digits or valid) `HexToColorRef` returns a value below 2^24, so bits 24-31 are zero;
whenever `LoadSettings` has written the colour state, `BorderActive` and
`BorderInactive` are below 2^24, and neither equals DWMWA_COLOR_DEFAULT. The colour
state after `Wh_ModInit` and after `Wh_ModSettingsChanged` is the one written by
`LoadSettings`. -/
theorem color_state_opaque (hexColor a i : Option (List Char)) :
    HexToColorRef hexColor < 2 ^ 24
    ∧ HexToColorRef hexColor / 2 ^ 24 = 0
    ∧ HexToColorRef hexColor ≠ DWMWA_COLOR_DEFAULT
    ∧ (∀ cs : ColorState, LoadSettings a i = some cs →
        cs.BorderActive < 2 ^ 24 ∧ cs.BorderInactive < 2 ^ 24
        ∧ cs.BorderActive ≠ DWMWA_COLOR_DEFAULT ∧ cs.BorderInactive ≠ DWMWA_COLOR_DEFAULT)
    ∧ (∀ (cs : ColorState) (ok : Nat), Wh_ModInit a i = some (cs, ok) →
        LoadSettings a i = some cs)
    ∧ (∀ (host : Host) (windows : List Nat) (tr tr1 : List Event) (cs : ColorState),
        Wh_ModSettingsChanged host a i windows tr = some (cs, tr1) →
        LoadSettings a i = some cs) := by
  have hx := HexToColorRef_lt hexColor
  have hd : DWMWA_COLOR_DEFAULT = 4294967295 := rfl
  rw [hd]
  refine ⟨hx, by omega, by omega, ?_, ?_, ?_⟩
  · intro cs hload
    have hcs : ∃ x y, cs.BorderActive = HexToColorRef x
        ∧ cs.BorderInactive = HexToColorRef y := by
      unfold LoadSettings at hload
      cases h1 : wcscpy_s 16 (a.getD "#0078D4".toList) with
      | none => rw [h1] at hload; exact absurd hload (by simp)
      | some active =>
        cases h2 : wcscpy_s 16 (i.getD "#808080".toList) with
        | none => rw [h1, h2] at hload; exact absurd hload (by simp)
        | some inactive =>
          rw [h1, h2] at hload
          simp only [Option.some.injEq] at hload
          subst hload
          exact ⟨some active, some inactive, rfl, rfl⟩
    obtain ⟨x, y, hA, hI⟩ := hcs
    have hxA := HexToColorRef_lt x
    have hyI := HexToColorRef_lt y
    rw [hA, hI]
    refine ⟨hxA, hyI, ?_, ?_⟩ <;> omega
  · intro cs ok h
    unfold Wh_ModInit at h
    cases hl : LoadSettings a i with
    | none => rw [hl] at h; exact absurd h (by simp)
    | some c =>
      rw [hl] at h
      simp only [Option.some.injEq, Prod.mk.injEq] at h
      rw [h.1]
  · intro host windows tr tr1 cs h
    unfold Wh_ModSettingsChanged at h
    cases hl : LoadSettings a i with
    | none => rw [hl] at h; exact absurd h (by simp)
    | some c =>
      rw [hl] at h
      simp only [Option.some.injEq, Prod.mk.injEq] at h
      rw [h.1]

/-- The invariant of C10 at a malformed text and at the colour state loaded from a
nine-character active text and a missing inactive text. -/
theorem color_state_opaque_witness :
    LoadSettings (some "#FFFFFFFF".toList) none = some
        { settings := { activeBorderColor := "#FFFFFFFF".toList
                        inactiveBorderColor := "#808080".toList }
          BorderActive := 0x00FFFFFF
          BorderInactive := 0x00808080 }
    ∧ HexToColorRef (some "-1zzzzzz".toList) < 2 ^ 24
    ∧ (0x00FFFFFF : Nat) < 2 ^ 24 ∧ (0x00808080 : Nat) < 2 ^ 24
    ∧ (0x00FFFFFF : Nat) ≠ DWMWA_COLOR_DEFAULT :=
  have h := color_state_opaque (some "-1zzzzzz".toList) (some "#FFFFFFFF".toList) none
  have hcs := h.2.2.2.1
    { settings := { activeBorderColor := "#FFFFFFFF".toList
                    inactiveBorderColor := "#808080".toList }
      BorderActive := 0x00FFFFFF
      BorderInactive := 0x00808080 } (by decide)
  ⟨by decide, h.1, hcs.1, hcs.2.1, hcs.2.2.1⟩

/-! ## Properties of the interceptors and of the enforcement routine -/

theorem IsValidWindow_iff (host : Host) (tr : List Event) (hWnd : Nat) :
    IsValidWindow host tr hWnd = true ↔
      (host.windowStyle tr hWnd % 2 ^ 32) &&& WS_THICKFRAME = WS_THICKFRAME
      ∨ (host.windowStyle tr hWnd % 2 ^ 32) &&& WS_CAPTION = WS_CAPTION := by
  simp [IsValidWindow, hasFrameOrCaption]

theorem dwmCalls_append (xs ys : List Event) : dwmCalls (xs ++ ys) = dwmCalls xs ++ dwmCalls ys := by
  simp [dwmCalls]

theorem procCalls_append (xs ys : List Event) :
    procCalls (xs ++ ys) = procCalls xs ++ procCalls ys := by
  simp [procCalls]

/-- The whole effect of `SetBorderColor`: nothing on an ineligible window, else one
call of the original followed by one log line. -/
theorem SetBorderColor_eq (host : Host) (cs : ColorState) (hWnd activate : Nat)
    (tr : List Event) :
    SetBorderColor host cs hWnd activate tr =
      if IsValidWindow host tr hWnd = true then
        tr ++ [Event.dwmOrig hWnd DWMWA_BORDER_COLOR
                (PvAttribute.colorref (if activate ≠ 0 then cs.BorderActive else cs.BorderInactive))
                sizeofCOLORREF,
               Event.log
                (if 0 ≤ host.dwmResult tr hWnd DWMWA_BORDER_COLOR
                    (PvAttribute.colorref
                      (if activate ≠ 0 then cs.BorderActive else cs.BorderInactive))
                    sizeofCOLORREF
                 then LogMsg.setBorderColor hWnd activate
                    (if activate ≠ 0 then cs.BorderActive else cs.BorderInactive)
                 else LogMsg.setBorderColorFailed hWnd
                    (host.dwmResult tr hWnd DWMWA_BORDER_COLOR
                      (PvAttribute.colorref
                        (if activate ≠ 0 then cs.BorderActive else cs.BorderInactive))
                      sizeofCOLORREF))]
      else tr := by
  unfold SetBorderColor
  cases hv : IsValidWindow host tr hWnd with
  | false => simp
  | true =>
    simp only [Bool.not_true, Bool.false_eq_true, if_false, if_true, DwmSetWindowAttribute_orig,
      SUCCEEDED, decide_eq_true_eq]
    split_ifs <;> simp

/-- The events `SetBorderColor` adds hold no call of an original default procedure. -/
theorem SetBorderColor_suffix (host : Host) (cs : ColorState) (hWnd activate : Nat)
    (tr : List Event) :
    ∃ after, SetBorderColor host cs hWnd activate tr = tr ++ after ∧ procCalls after = []
      ∧ after.length ≤ 2 := by
  rw [SetBorderColor_eq]
  by_cases hv : IsValidWindow host tr hWnd = true
  · rw [if_pos hv]
    exact ⟨_, rfl, by simp [procCalls, Event.isProcOrig], by simp⟩
  · rw [if_neg hv]
    exact ⟨[], by simp, rfl, by simp⟩

/-- Claim C2: `DwmSetWindowAttribute_hook` returns S_OK and makes no call of the
original when the attribute is DWMWA_BORDER_COLOR and the window is eligible; in
every other case it calls the original exactly once, with the four arguments as
received, and returns the original's result. -/
theorem DwmSetWindowAttribute_hook_spec (host : Host) (hwnd dwAttribute : Nat)
    (pvAttribute : PvAttribute) (cbAttribute : Nat) (tr : List Event) :
    (dwAttribute = DWMWA_BORDER_COLOR ∧ IsValidWindow host tr hwnd = true →
      (DwmSetWindowAttribute_hook host hwnd dwAttribute pvAttribute cbAttribute tr).1 = S_OK
      ∧ dwmCalls (DwmSetWindowAttribute_hook host hwnd dwAttribute pvAttribute cbAttribute tr).2
          = dwmCalls tr)
    ∧ (¬ (dwAttribute = DWMWA_BORDER_COLOR ∧ IsValidWindow host tr hwnd = true) →
      (DwmSetWindowAttribute_hook host hwnd dwAttribute pvAttribute cbAttribute tr).1
          = host.dwmResult tr hwnd dwAttribute pvAttribute cbAttribute
      ∧ (DwmSetWindowAttribute_hook host hwnd dwAttribute pvAttribute cbAttribute tr).2
          = tr ++ [Event.dwmOrig hwnd dwAttribute pvAttribute cbAttribute]) := by
  constructor
  · rintro ⟨ha, hv⟩
    simp [DwmSetWindowAttribute_hook, ha, hv, dwmCalls, Event.isDwmOrig]
  · intro hn
    have hc : (dwAttribute == DWMWA_BORDER_COLOR && IsValidWindow host tr hwnd) = false := by
      cases hv : IsValidWindow host tr hwnd with
      | false => simp
      | true =>
        have : dwAttribute ≠ DWMWA_BORDER_COLOR := fun h => hn ⟨h, hv⟩
        simp [this]
    simp [DwmSetWindowAttribute_hook, hc, DwmSetWindowAttribute_orig]

/-- The two cases of C2 in the sample process: a border colour for the overlapped
window 1 is swallowed, a border colour for the popup 3 and a corner preference
(attribute 33) for window 1 are passed on. -/
theorem DwmSetWindowAttribute_hook_spec_witness :
    (DwmSetWindowAttribute_hook failingHost 1 DWMWA_BORDER_COLOR (PvAttribute.addr 64) 4 []).1 = S_OK
    ∧ dwmCalls
        (DwmSetWindowAttribute_hook failingHost 1 DWMWA_BORDER_COLOR (PvAttribute.addr 64) 4 []).2
        = []
    ∧ (DwmSetWindowAttribute_hook failingHost 3 DWMWA_BORDER_COLOR (PvAttribute.addr 64) 4 [])
        = (-2147024809, [Event.dwmOrig 3 DWMWA_BORDER_COLOR (PvAttribute.addr 64) 4])
    ∧ (DwmSetWindowAttribute_hook failingHost 1 33 (PvAttribute.addr 64) 4 []).2
        = [Event.dwmOrig 1 33 (PvAttribute.addr 64) 4] :=
  have h1 := (DwmSetWindowAttribute_hook_spec failingHost 1 DWMWA_BORDER_COLOR
    (PvAttribute.addr 64) 4 []).1 ⟨rfl, by decide⟩
  have h3 := (DwmSetWindowAttribute_hook_spec failingHost 3 DWMWA_BORDER_COLOR
    (PvAttribute.addr 64) 4 []).2 (by decide)
  have h33 := (DwmSetWindowAttribute_hook_spec failingHost 1 33
    (PvAttribute.addr 64) 4 []).2 (by decide)
  ⟨h1.1, h1.2, Prod.ext h3.1 h3.2, h33.2⟩

/-- Claim C3: on an eligible window `SetBorderColor(h, TRUE)` makes exactly one call
of the original attribute write, with DWMWA_BORDER_COLOR and the configured active
colour, and `SetBorderColor(h, FALSE)` exactly one with the inactive colour; on an
ineligible window it makes no call and leaves the trace as it was. The call made
does not depend on earlier writes in the trace, and the result code of the original
only selects the log line that follows. -/
theorem SetBorderColor_spec (host : Host) (cs : ColorState) (hWnd : Nat) (tr : List Event) :
    (IsValidWindow host tr hWnd = true →
      (∃ msg, SetBorderColor host cs hWnd 1 tr
          = tr ++ [Event.dwmOrig hWnd DWMWA_BORDER_COLOR (PvAttribute.colorref cs.BorderActive)
                      sizeofCOLORREF, Event.log msg])
      ∧ (∃ msg, SetBorderColor host cs hWnd 0 tr
          = tr ++ [Event.dwmOrig hWnd DWMWA_BORDER_COLOR (PvAttribute.colorref cs.BorderInactive)
                      sizeofCOLORREF, Event.log msg])
      ∧ dwmCalls (SetBorderColor host cs hWnd 1 tr)
          = dwmCalls tr ++ [Event.dwmOrig hWnd DWMWA_BORDER_COLOR
                              (PvAttribute.colorref cs.BorderActive) sizeofCOLORREF]
      ∧ dwmCalls (SetBorderColor host cs hWnd 0 tr)
          = dwmCalls tr ++ [Event.dwmOrig hWnd DWMWA_BORDER_COLOR
                              (PvAttribute.colorref cs.BorderInactive) sizeofCOLORREF]
      ∧ ∀ activate, activate ≠ 0 →
          dwmCalls (SetBorderColor host cs hWnd activate tr)
            = dwmCalls (SetBorderColor host cs hWnd 1 tr))
    ∧ (IsValidWindow host tr hWnd = false →
      ∀ activate, SetBorderColor host cs hWnd activate tr = tr) := by
  constructor
  · intro hv
    have key : ∀ activate, dwmCalls (SetBorderColor host cs hWnd activate tr)
        = dwmCalls tr ++ [Event.dwmOrig hWnd DWMWA_BORDER_COLOR
            (PvAttribute.colorref (if activate ≠ 0 then cs.BorderActive else cs.BorderInactive))
            sizeofCOLORREF] := by
      intro activate
      rw [SetBorderColor_eq, if_pos hv, dwmCalls_append]
      simp [dwmCalls, Event.isDwmOrig]
    refine ⟨?_, ?_, ?_, ?_, ?_⟩
    · rw [SetBorderColor_eq, if_pos hv]
      exact ⟨_, rfl⟩
    · rw [SetBorderColor_eq, if_pos hv]
      exact ⟨_, rfl⟩
    · rw [key]; simp
    · rw [key]; simp
    · intro activate ha
      rw [key, key]
      simp [ha]
  · intro hv activate
    rw [SetBorderColor_eq, hv]
    simp

/-- The cases of C3 in the sample process, where the original write fails: window 1
is eligible and gets one write of the right colour, also behind an earlier write;
the popup 3 gets none. -/
theorem SetBorderColor_spec_witness :
    dwmCalls (SetBorderColor failingHost defaultColors 1 1 [])
        = [Event.dwmOrig 1 DWMWA_BORDER_COLOR (PvAttribute.colorref 0x00D47800) 4]
    ∧ dwmCalls (SetBorderColor failingHost defaultColors 1 0
          [Event.dwmOrig 1 DWMWA_BORDER_COLOR (PvAttribute.colorref 0x00D47800) 4])
        = [Event.dwmOrig 1 DWMWA_BORDER_COLOR (PvAttribute.colorref 0x00D47800) 4,
           Event.dwmOrig 1 DWMWA_BORDER_COLOR (PvAttribute.colorref 0x00808080) 4]
    ∧ SetBorderColor failingHost defaultColors 3 1 [] = [] :=
  have h1 := (SetBorderColor_spec failingHost defaultColors 1 []).1 (by decide)
  have h2 := (SetBorderColor_spec failingHost defaultColors 1
    [Event.dwmOrig 1 DWMWA_BORDER_COLOR (PvAttribute.colorref 0x00D47800) 4]).1 (by decide)
  have h3 := (SetBorderColor_spec failingHost defaultColors 3 []).2 (by decide) 1
  ⟨h1.2.2.1, h2.2.2.2.1, h3⟩

/-- The events behind the forwarded call, for either branch of an interceptor. -/
theorem forwards_first_aux (host : Host) (cs : ColorState) (which : DefProc)
    (hWnd uMsg wParam lParam : Nat) (tr : List Event) (c : Prop) [Decidable c] :
    ∃ after : List Event,
      (if c then
          ((DefProc_orig host which hWnd uMsg wParam lParam tr).1,
            SetBorderColor host cs hWnd (BOOL_of_WPARAM wParam)
              (DefProc_orig host which hWnd uMsg wParam lParam tr).2)
        else
          ((DefProc_orig host which hWnd uMsg wParam lParam tr).1,
            (DefProc_orig host which hWnd uMsg wParam lParam tr).2)).2
        = tr ++ Event.procOrig which hWnd uMsg wParam lParam :: after
      ∧ procCalls after = [] ∧ (dwmCalls after).length ≤ 1 := by
  by_cases hc : c
  · rw [if_pos hc]
    simp only [DefProc_orig]
    rw [SetBorderColor_eq]
    by_cases hv : IsValidWindow host (tr ++ [Event.procOrig which hWnd uMsg wParam lParam]) hWnd
        = true
    · rw [if_pos hv]
      refine ⟨_, by rw [List.append_assoc]; rfl, ?_, ?_⟩
      · simp [procCalls, Event.isProcOrig]
      · simp [dwmCalls, Event.isDwmOrig]
    · rw [if_neg hv]
      exact ⟨[], rfl, rfl, by simp [dwmCalls]⟩
  · rw [if_neg hc]
    exact ⟨[], rfl, rfl, by simp [dwmCalls]⟩

theorem forwards_first_result (host : Host) (cs : ColorState) (which : DefProc)
    (hWnd uMsg wParam lParam : Nat) (tr : List Event) (c : Prop) [Decidable c] :
    (if c then
        ((DefProc_orig host which hWnd uMsg wParam lParam tr).1,
          SetBorderColor host cs hWnd (BOOL_of_WPARAM wParam)
            (DefProc_orig host which hWnd uMsg wParam lParam tr).2)
      else
        ((DefProc_orig host which hWnd uMsg wParam lParam tr).1,
          (DefProc_orig host which hWnd uMsg wParam lParam tr).2)).1
      = host.procResult tr which hWnd uMsg wParam lParam := by
  split_ifs <;> rfl

/-- Claim C5: each of the four interceptors `DefWindowProcA_hook`,
`DefWindowProcW_hook`, `DefDlgProcA_hook` and `DefDlgProcW_hook`, for every window,
message, wParam and lParam and whatever the host answers to the colour write, calls
its original exactly once with the four arguments as received, makes any
border-colour write only after that call, and returns the value the original
returned. -/
theorem proc_hooks_forward_first :
    ForwardsFirst DefProc.DefWindowProcA DefWindowProcA_hook
    ∧ ForwardsFirst DefProc.DefWindowProcW DefWindowProcW_hook
    ∧ ForwardsFirst DefProc.DefDlgProcA DefDlgProcA_hook
    ∧ ForwardsFirst DefProc.DefDlgProcW DefDlgProcW_hook := by
  refine ⟨?_, ?_, ?_, ?_⟩ <;> intro host cs hWnd uMsg wParam lParam tr
  · exact ⟨forwards_first_result host cs _ hWnd uMsg wParam lParam tr _,
      forwards_first_aux host cs _ hWnd uMsg wParam lParam tr _⟩
  · exact ⟨forwards_first_result host cs _ hWnd uMsg wParam lParam tr _,
      forwards_first_aux host cs _ hWnd uMsg wParam lParam tr _⟩
  · exact ⟨forwards_first_result host cs _ hWnd uMsg wParam lParam tr _,
      forwards_first_aux host cs _ hWnd uMsg wParam lParam tr _⟩
  · exact ⟨forwards_first_result host cs _ hWnd uMsg wParam lParam tr _,
      forwards_first_aux host cs _ hWnd uMsg wParam lParam tr _⟩

/-- The reset callback never stops the enumeration. -/
theorem DisableEnumWindowsCallback_continue (host : Host) (hWnd lParam : Nat) (tr : List Event) :
    (DisableEnumWindowsCallback host hWnd lParam tr).1 = 1 := by
  unfold DisableEnumWindowsCallback
  simp only
  split_ifs <;> rfl

/-- The unload enumeration visits every window: it is the callback run over the
whole list, whatever the host answers. -/
theorem EnumWindows_Disable_foldl (host : Host) (lParam : Nat) (windows : List Nat) :
    ∀ tr : List Event,
      EnumWindows (DisableEnumWindowsCallback host) lParam windows tr
        = windows.foldl (fun t h => (DisableEnumWindowsCallback host h lParam t).2) tr := by
  induction windows with
  | nil => intro tr; rfl
  | cons w ws ih =>
    intro tr
    unfold EnumWindows
    simp only
    rw [if_neg (by rw [DisableEnumWindowsCallback_continue]; decide), ih]
    rfl

/-- The unload enumeration over windows whose style and owner stay as they are. -/
theorem EnumWindows_Disable (host : Host) (style owner : Nat → Nat)
    (hstyle : ∀ t h, host.windowStyle t h = style h)
    (howner : ∀ t h, host.windowProcessId t h = owner h) (windows : List Nat) :
    ∀ tr : List Event,
      EnumWindows (DisableEnumWindowsCallback host) (GetCurrentProcessId host) windows tr
        = tr ++ (windows.filter (fun h =>
              decide (owner h % 2 ^ 32 = host.currentProcessId % 2 ^ 32)
                && hasFrameOrCaption (style h % 2 ^ 32))).map
            (fun h => Event.dwmOrig h DWMWA_BORDER_COLOR
              (PvAttribute.colorref DWMWA_COLOR_DEFAULT) sizeofCOLORREF) := by
  induction windows with
  | nil => intro tr; simp [EnumWindows]
  | cons w ws ih =>
    intro tr
    unfold EnumWindows
    simp only
    rw [if_neg (by rw [DisableEnumWindowsCallback_continue]; decide), ih]
    unfold DisableEnumWindowsCallback
    simp only [GetCurrentProcessId, Nat.mod_mod, IsValidWindow, hstyle, howner,
      DwmSetWindowAttribute_orig, ColorDefault]
    by_cases ho : owner w % 2 ^ 32 = host.currentProcessId % 2 ^ 32
    · cases hf : hasFrameOrCaption (style w % 2 ^ 32) with
      | true =>
        have e1 : (host.currentProcessId % 2 ^ 32 = owner w % 2 ^ 32 ∧ true = true) := ⟨ho.symm, rfl⟩
        have hp : (decide (owner w % 2 ^ 32 = host.currentProcessId % 2 ^ 32)
            && hasFrameOrCaption (style w % 2 ^ 32)) = true := by
          rw [hf, decide_eq_true ho]; rfl
        rw [if_pos e1, @List.filter_cons_of_pos _ (fun h =>
          decide (owner h % 2 ^ 32 = host.currentProcessId % 2 ^ 32)
            && hasFrameOrCaption (style h % 2 ^ 32)) w ws hp]
        simp only [List.map_cons, List.append_assoc, List.singleton_append]
      | false =>
        have e1 : ¬ (host.currentProcessId % 2 ^ 32 = owner w % 2 ^ 32 ∧ false = true) := by simp
        have hp : ¬ (decide (owner w % 2 ^ 32 = host.currentProcessId % 2 ^ 32)
            && hasFrameOrCaption (style w % 2 ^ 32)) = true := by
          rw [hf]; simp
        rw [if_neg e1, @List.filter_cons_of_neg _ (fun h =>
          decide (owner h % 2 ^ 32 = host.currentProcessId % 2 ^ 32)
            && hasFrameOrCaption (style h % 2 ^ 32)) w ws hp]
    · have e1 : ¬ (host.currentProcessId % 2 ^ 32 = owner w % 2 ^ 32
          ∧ hasFrameOrCaption (style w % 2 ^ 32) = true) := fun h => ho h.1.symm
      have hp : ¬ (decide (owner w % 2 ^ 32 = host.currentProcessId % 2 ^ 32)
          && hasFrameOrCaption (style w % 2 ^ 32)) = true := by
        rw [decide_eq_false ho]; simp
      rw [if_neg e1, @List.filter_cons_of_neg _ (fun h =>
          decide (owner h % 2 ^ 32 = host.currentProcessId % 2 ^ 32)
            && hasFrameOrCaption (style h % 2 ^ 32)) w ws hp]

/-- Claim C6: the unload pass `Wh_ModBeforeUninit` over any finite enumeration of
top-level windows, whose styles and owners stay as they are during the pass, calls
the original attribute write exactly once, with DWMWA_BORDER_COLOR and
DWMWA_COLOR_DEFAULT, for each enumerated window that belongs to the current process
and is eligible, in enumeration order, and makes no call for any other window; the
callback returns TRUE for every window, so the enumeration is never stopped early. -/
theorem Wh_ModBeforeUninit_spec (host : Host) (style owner : Nat → Nat)
    (windows : List Nat) (tr : List Event)
    (hstyle : ∀ t h, host.windowStyle t h = style h)
    (howner : ∀ t h, host.windowProcessId t h = owner h) :
    Wh_ModBeforeUninit host windows tr
        = tr ++ Event.log LogMsg.beforeUninit ::
            (windows.filter (fun h =>
              decide (owner h % 2 ^ 32 = host.currentProcessId % 2 ^ 32)
                && hasFrameOrCaption (style h % 2 ^ 32))).map
            (fun h => Event.dwmOrig h DWMWA_BORDER_COLOR
              (PvAttribute.colorref DWMWA_COLOR_DEFAULT) sizeofCOLORREF)
    ∧ (dwmCalls (Wh_ModBeforeUninit host windows tr)).length
        = (dwmCalls tr).length + (windows.filter (fun h =>
              decide (owner h % 2 ^ 32 = host.currentProcessId % 2 ^ 32)
                && hasFrameOrCaption (style h % 2 ^ 32))).length
    ∧ ∀ hWnd lParam t, (DisableEnumWindowsCallback host hWnd lParam t).1 = 1 := by
  have e : Wh_ModBeforeUninit host windows tr
        = tr ++ Event.log LogMsg.beforeUninit ::
            (windows.filter (fun h =>
              decide (owner h % 2 ^ 32 = host.currentProcessId % 2 ^ 32)
                && hasFrameOrCaption (style h % 2 ^ 32))).map
            (fun h => Event.dwmOrig h DWMWA_BORDER_COLOR
              (PvAttribute.colorref DWMWA_COLOR_DEFAULT) sizeofCOLORREF) := by
    unfold Wh_ModBeforeUninit
    rw [EnumWindows_Disable host style owner hstyle howner]
    simp
  refine ⟨e, ?_, DisableEnumWindowsCallback_continue host⟩
  rw [e, dwmCalls_append]
  have hall : ∀ l : List Nat, dwmCalls (l.map (fun h => Event.dwmOrig h DWMWA_BORDER_COLOR
      (PvAttribute.colorref DWMWA_COLOR_DEFAULT) sizeofCOLORREF))
      = l.map (fun h => Event.dwmOrig h DWMWA_BORDER_COLOR
      (PvAttribute.colorref DWMWA_COLOR_DEFAULT) sizeofCOLORREF) := by
    intro l
    simp [dwmCalls, Event.isDwmOrig, List.filter_eq_self]
  have hcons : ∀ l : List Event, dwmCalls (Event.log LogMsg.beforeUninit :: l) = dwmCalls l := by
    intro l
    simp [dwmCalls, Event.isDwmOrig]
  rw [hcons, hall]
  simp

/-- The unload pass of C6 in the sample process: of the enumerated windows 1
(eligible), 3 (popup), 7 (other process) and 2 (eligible) exactly the two eligible
owned ones are reset, each with the default sentinel. -/
theorem Wh_ModBeforeUninit_spec_witness :
    Wh_ModBeforeUninit sampleHost [1, 3, 7, 2] []
      = [Event.log LogMsg.beforeUninit,
         Event.dwmOrig 1 DWMWA_BORDER_COLOR (PvAttribute.colorref 0xFFFFFFFF) 4,
         Event.dwmOrig 2 DWMWA_BORDER_COLOR (PvAttribute.colorref 0xFFFFFFFF) 4]
    ∧ (dwmCalls (Wh_ModBeforeUninit sampleHost [1, 3, 7, 2] [])).length = 2 :=
  have h := Wh_ModBeforeUninit_spec sampleHost
    (fun h => if h = 3 then WS_POPUP else WS_OVERLAPPEDWINDOW)
    (fun h => if h = 7 then 999 else 4242) [1, 3, 7, 2] [] (fun _ _ => rfl) (fun _ _ => rfl)
  ⟨h.1, h.2.1⟩

/-- What the two window-procedure interceptors write on an activation message for a
window that is eligible once the original has returned: the active colour when the
whole wParam, cut to 32 bits, is not 0, the inactive colour when it is 0. -/
theorem DefWindowProc_hooks_activation (host : Host) (cs : ColorState)
    (hWnd uMsg wParam lParam : Nat) (tr : List Event)
    (hmsg : uMsg = WM_ACTIVATE ∨ uMsg = WM_NCACTIVATE)
    (hA : IsValidWindow host
      (tr ++ [Event.procOrig DefProc.DefWindowProcA hWnd uMsg wParam lParam]) hWnd = true)
    (hW : IsValidWindow host
      (tr ++ [Event.procOrig DefProc.DefWindowProcW hWnd uMsg wParam lParam]) hWnd = true) :
    dwmCalls (DefWindowProcA_hook host cs hWnd uMsg wParam lParam tr).2
        = dwmCalls tr ++ [Event.dwmOrig hWnd DWMWA_BORDER_COLOR
            (PvAttribute.colorref
              (if wParam % 2 ^ 32 ≠ 0 then cs.BorderActive else cs.BorderInactive))
            sizeofCOLORREF]
    ∧ dwmCalls (DefWindowProcW_hook host cs hWnd uMsg wParam lParam tr).2
        = dwmCalls tr ++ [Event.dwmOrig hWnd DWMWA_BORDER_COLOR
            (PvAttribute.colorref
              (if wParam % 2 ^ 32 ≠ 0 then cs.BorderActive else cs.BorderInactive))
            sizeofCOLORREF] := by
  constructor
  · unfold DefWindowProcA_hook
    simp only [if_pos hmsg, DefProc_orig]
    rw [SetBorderColor_eq, if_pos hA, dwmCalls_append, dwmCalls_append]
    simp [dwmCalls, Event.isDwmOrig, BOOL_of_WPARAM]
  · unfold DefWindowProcW_hook
    simp only [if_pos hmsg, DefProc_orig]
    rw [SetBorderColor_eq, if_pos hW, dwmCalls_append, dwmCalls_append]
    simp [dwmCalls, Event.isDwmOrig, BOOL_of_WPARAM]

/-- Claim C4, evaluated where it fails: with `activeBorderColor=#0078D4` and
`inactiveBorderColor=#808080`, the eligible window 1 receives WM_ACTIVATE with
wParam 0x00010000, whose low-order word is WA_INACTIVE and whose high-order word is
the minimized flag. The message signals deactivation, yet both window-procedure
interceptors hand the whole wParam to `SetBorderColor` as its BOOL, and the original
attribute write gets the active colour 0x00D47800 and not the inactive colour
0x00808080. With wParam 0 the same message writes 0x00808080. -/
theorem DefWindowProc_hook_deactivate_minimized :
    LOWORD 0x00010000 = WA_INACTIVE
    ∧ HIWORD 0x00010000 = 1
    ∧ LoadSettings (some "#0078D4".toList) (some "#808080".toList) = some defaultColors
    ∧ IsValidWindow sampleHost [] 1 = true
    ∧ dwmCalls (DefWindowProcA_hook sampleHost defaultColors 1 WM_ACTIVATE 0x00010000 0 []).2
        = [Event.dwmOrig 1 DWMWA_BORDER_COLOR (PvAttribute.colorref 0x00D47800) 4]
    ∧ dwmCalls (DefWindowProcW_hook sampleHost defaultColors 1 WM_ACTIVATE 0x00010000 0 []).2
        = [Event.dwmOrig 1 DWMWA_BORDER_COLOR (PvAttribute.colorref 0x00D47800) 4]
    ∧ dwmCalls (DefWindowProcW_hook sampleHost defaultColors 1 WM_ACTIVATE 0 0 []).2
        = [Event.dwmOrig 1 DWMWA_BORDER_COLOR (PvAttribute.colorref 0x00808080) 4] := by
  decide

end WindowBorders
